import Mathlib

/-!
Verification of the conversation/query orchestration layer of the
ChatBotGenie repository: a shallow embedding, in Lean 4, of the chat-service
hook (`useChatService.sendMessage`) and the Databricks Genie API client
(`genieApi.ts`), together with proofs and refutations of the frozen claims
about them.

Modelling conventions:
- JavaScript values parsed from JSON are modelled by structures whose
  possibly-absent fields are `Option`s; a JS falsy check on a string-typed
  value (`!x`) is `none`-or-`some ""`, and on a number is `none`-or-zero.
- Network I/O is modelled by oracles: a single fetch is a `Fetch` record
  (HTTP status plus parsed body); a polling loop consumes `Nat → Fetch β`.
  Each API operation also reports the list (or count) of fetches it made,
  so "no network call" is a statement about that trace.
- `setTimeout` delays are not real time here; the poll loop records, for
  every fetch it performs, the backoff delay (in milliseconds, as a
  rational) that the source computes before that fetch.
- Thrown JS `Error`s become an `ApiError` sum; the catch blocks of the
  source become `match`es on `Except`.
-/
/-- JS `Response.ok`: HTTP status in the range 200..299. -/

def jsOk (code : Nat) : Prop := 200 ≤ code ∧ code ≤ 299

instance (code : Nat) : Decidable (jsOk code) := by unfold jsOk; infer_instance

/-- JS falsy test for a possibly-absent string: `undefined`/`null` or `""`. -/
def jsFalsy : Option String → Bool
  | none => true
  | some s => s == ""

/-- JS `a || b` for a possibly-absent string `a` with a string default `b`. -/
def jsOrStr (a : Option String) (b : String) : String :=
  match a with
  | none => b
  | some s => if s = "" then b else s

/-- JS truthiness filter for a possibly-absent string: keeps only non-empty values. -/
def jsNonempty : Option String → Option String
  | none => none
  | some s => if s = "" then none else some s

/-- JS `a || b` for a possibly-absent number `a` with default `b`: `0` is falsy. -/
def jsOrNat (a : Option Nat) (b : Nat) : Nat :=
  match a with
  | none => b
  | some n => if n = 0 then b else n

/-! ## Raw Databricks SQL statement results (input of the Result Transformer) -/
/-- One column descriptor of `manifest.schema.columns`. -/

structure RawColumn where
  name : String
deriving DecidableEq, Repr

/-- The `manifest.schema` object; its `columns` array may be absent. -/
structure RawSchema where
  columns : Option (List RawColumn)
deriving DecidableEq, Repr

/-- The `manifest` object; its `schema` may be absent. -/
structure RawManifest where
  schema : Option RawSchema
deriving DecidableEq, Repr

/-- The `result` section: `data_array` rows (cells in their JSON string form)
and the server-reported `total_row_count`. -/
structure RawResultSection where
  data_array : Option (List (List String))
  total_row_count : Option Nat
deriving DecidableEq, Repr

/-- Embedded error detail of a statement status. -/
structure RawStatusError where
  message : Option String
deriving DecidableEq, Repr

/-- The `status` object of a statement execution response. -/
structure RawStatus where
  state : Option String
  error : Option RawStatusError
deriving DecidableEq, Repr

/-- A raw statement result as returned by `/api/2.0/sql/statements/`. -/
structure RawStatementResult where
  status : Option RawStatus
  result : Option RawResultSection
  manifest : Option RawManifest
deriving DecidableEq, Repr

/-- The chart-ready tabular shape produced by the Result Transformer. -/
structure ChartData where
  columnNames : List String
  rows : List (List String)
  rowCount : Nat
  totalRowCount : Nat
deriving DecidableEq, Repr

/-- The `try` block of `transformDatabricksResultToChartData`: reading
`manifest.schema.columns` throws (modelled as `Except.error`) when `schema`
or `columns` is absent. -/
def transformTryBlock (res : RawResultSection) (man : RawManifest) :
    Except String ChartData :=
  match man.schema with
  | none => .error "TypeError: schema is undefined"
  | some schema =>
    match schema.columns with
    | none => .error "TypeError: columns is undefined"
    | some cols =>
      let columnNames := cols.map (fun c => c.name)
      let data := res.data_array.getD []
      .ok { columnNames := columnNames
            rows := data
            rowCount := data.length
            totalRowCount := jsOrNat res.total_row_count data.length }

/-- `transformDatabricksResultToChartData` from `genieApi.ts`: returns `null`
when the input, its `result` section or its `manifest` is missing, and
converts any exception in the body to a `null` return (the `catch` block). -/
def transformDatabricksResultToChartData (result : Option RawStatementResult) :
    Option ChartData :=
  match result with
  | none => none
  | some r =>
    match r.result, r.manifest with
    | some res, some man =>
      match transformTryBlock res man with
      | .ok v => some v
      | .error _ => none
    | _, _ => none

/-- Shape condition under which the transformer yields `null`: missing input,
missing `result` section, missing `manifest`, or a manifest without
`schema.columns`. -/
def transformReturnsNull (o : Option RawStatementResult) : Prop :=
  match o with
  | none => True
  | some r =>
    r.result = none ∨ r.manifest = none ∨
      (r.manifest.bind (fun m => m.schema)) = none ∨
      ((r.manifest.bind (fun m => m.schema)).bind (fun s => s.columns)) = none

/-- Concrete input refuting C5 as stated: the server-reported
`total_row_count` is present but `0`, and the materialized data has one row. -/
def c5CexInput : RawStatementResult :=
  { status := none
    result := some { data_array := some [["x"]], total_row_count := some 0 }
    manifest := some { schema := some { columns := some [{ name := "a" }] } } }

/-- The round-trip example input named by the claim: manifest columns
`["a","b"]`, `data_array = [["x","1"],["y","2"]]`, no `total_row_count`. -/
def c5RoundTripInput : RawStatementResult :=
  { status := none
    result := some { data_array := some [["x", "1"], ["y", "2"]], total_row_count := none }
    manifest := some { schema := some { columns := some [{ name := "a" }, { name := "b" }] } } }

/-- Concrete input refuting C8 as stated: the server reports a total of `1`
while two rows are materialized. -/
def c8CexInput : RawStatementResult :=
  { status := none
    result := some { data_array := some [["x"], ["y"]], total_row_count := some 1 }
    manifest := some { schema := some { columns := some [{ name := "a" }] } } }

/-- Witness for C8's amended theorem: a raw result with two materialized rows
and a server-reported total of `5` satisfies the sanity hypothesis and yields
`rowCount = 2 ≤ totalRowCount = 5`. -/
def c8WitnessInput : RawStatementResult :=
  { status := none
    result := some { data_array := some [["x"], ["y"]], total_row_count := some 5 }
    manifest := some { schema := some { columns := some [{ name := "a" }] } } }

/-! ## Genie protocol payloads -/
/-- A `query` attachment of a Genie message. -/

structure QueryAttachment where
  description : Option String
  query : Option String
deriving DecidableEq, Repr

/-- A `text` attachment of a Genie message. -/
structure TextAttachment where
  content : Option String
deriving DecidableEq, Repr

/-- One element of a Genie message's `attachments` array. -/
structure GenieAttachment where
  attachment_id : Option String
  query : Option QueryAttachment
  text : Option TextAttachment
deriving DecidableEq, Repr

/-- The body of a Genie poll response: a `status` string (terminal values
`COMPLETED` / `FAILED`) and the attachments. -/
structure GenieMessage where
  status : Option String
  attachments : List GenieAttachment
deriving DecidableEq, Repr

/-- Body of a `start-conversation` response. -/
structure StartConversationBody where
  conversation_id : Option String
  message_id : Option String
deriving DecidableEq, Repr

/-- Body of a `messages` creation response. -/
structure CreateMessageBody where
  id : Option String
deriving DecidableEq, Repr

/-- The `statement_response` wrapper of a Genie-side SQL query result. -/
structure StatementResponseBody where
  status : Option RawStatus
deriving DecidableEq, Repr

/-- Body of a Genie `query-result` response. -/
structure GenieSqlResult where
  statement_response : Option StatementResponseBody
deriving DecidableEq, Repr

/-- One network fetch, as the code observes it: the HTTP status and the
parsed JSON body. -/
structure Fetch (β : Type) where
  httpStatus : Nat
  body : β
deriving DecidableEq, Repr

/-- The failure taxonomy of the client, one constructor per distinct thrown
`Error` of `genieApi.ts`. -/
inductive ApiError where
  | credential
  | protocol (code : Nat)
  | sqlProtocol (code : Nat)
  | queryExecution (message : String)
  | missingIds
deriving DecidableEq, Repr

/-- The `.message` carried by each thrown `Error` of the source. -/
def errMessage : ApiError → String
  | .credential => "API token is required but was not provided"
  | .protocol code => "API error " ++ toString code
  | .sqlProtocol code => "Databricks SQL API error " ++ toString code
  | .queryExecution msg => "SQL execution failed: " ++ msg
  | .missingIds => "Missing conversation or message ID"

/-- `getApiToken`: throws when the provided token is absent or empty (JS
falsy); never substitutes any default token. -/
def getApiToken (apiToken : Option String) : Except ApiError String :=
  match apiToken with
  | none => .error .credential
  | some s => if s = "" then .error .credential else .ok s

/-- The backoff delay in milliseconds computed at the top of each polling
iteration: `Math.min(1000 * Math.pow(1.5, attempts), 10000)` for a retry,
no delay on the first attempt. -/
def pollDelay (attempts : Nat) : ℚ :=
  if 0 < attempts then min (1000 * (3 / 2 : ℚ) ^ attempts) 10000 else 0

/-- `startConversation`: checks the credential while building the request
(so a missing credential throws before the fetch), then performs one fetch
and fails with the protocol error on a non-2xx status. The second component
counts the network calls made. -/
def startConversation (question : String) (resp : Fetch StartConversationBody)
    (apiToken : Option String) : Except ApiError StartConversationBody × Nat :=
  match getApiToken apiToken with
  | .error e => (.error e, 0)
  | .ok _ =>
    if ¬ jsOk resp.httpStatus then (.error (.protocol resp.httpStatus), 1)
    else (.ok resp.body, 1)

/-- `createMessage`: same contract as `startConversation` on an existing
conversation. -/
def createMessage (conversationId : String) (question : String)
    (resp : Fetch CreateMessageBody) (apiToken : Option String) :
    Except ApiError CreateMessageBody × Nat :=
  match getApiToken apiToken with
  | .error e => (.error e, 0)
  | .ok _ =>
    if ¬ jsOk resp.httpStatus then (.error (.protocol resp.httpStatus), 1)
    else (.ok resp.body, 1)

/-- `pollForResponse`: the recursive Genie poll loop. The first component
records, for each fetch performed, the attempt index it used together with
the backoff delay awaited before that fetch; the second is the returned
payload or the thrown error. A 409 response retries while `attempts < 15`;
an other non-2xx response throws; a 2xx payload whose `status` is neither
`COMPLETED` nor `FAILED` retries while `attempts < 20`, else the payload is
returned as-is. -/
def pollForResponse (oracle : Nat → Fetch GenieMessage) (apiToken : Option String)
    (attempts : Nat := 0) : List (Nat × ℚ) × Except ApiError GenieMessage :=
  match getApiToken apiToken with
  | .error e => ([], .error e)
  | .ok _ =>
    let r := oracle attempts
    if h1 : r.httpStatus = 409 ∧ attempts < 15 then
      let rest := pollForResponse oracle apiToken (attempts + 1)
      ((attempts, pollDelay attempts) :: rest.1, rest.2)
    else if ¬ jsOk r.httpStatus then
      ([(attempts, pollDelay attempts)], .error (.protocol r.httpStatus))
    else if h3 : (r.body.status ≠ some "COMPLETED" ∧ r.body.status ≠ some "FAILED")
        ∧ attempts < 20 then
      let rest := pollForResponse oracle apiToken (attempts + 1)
      ((attempts, pollDelay attempts) :: rest.1, rest.2)
    else ([(attempts, pollDelay attempts)], .ok r.body)
termination_by 21 - attempts
decreasing_by all_goals omega

/-- `getSQLQueryResult`: the legacy message-scoped Genie SQL result fetch,
retrying with the same backoff while the embedded statement state is
`RUNNING` or `PENDING`, capped at 15 retries. -/
def getSQLQueryResult (oracle : Nat → Fetch GenieSqlResult) (apiToken : Option String)
    (attempts : Nat := 0) : List (Nat × ℚ) × Except ApiError GenieSqlResult :=
  match getApiToken apiToken with
  | .error e => ([], .error e)
  | .ok _ =>
    let r := oracle attempts
    if ¬ jsOk r.httpStatus then
      ([(attempts, pollDelay attempts)], .error (.protocol r.httpStatus))
    else if h : ((r.body.statement_response.bind (fun s => s.status)).bind (fun s => s.state)
          = some "RUNNING" ∨
        (r.body.statement_response.bind (fun s => s.status)).bind (fun s => s.state)
          = some "PENDING") ∧ attempts < 15 then
      let rest := getSQLQueryResult oracle apiToken (attempts + 1)
      ((attempts, pollDelay attempts) :: rest.1, rest.2)
    else ([(attempts, pollDelay attempts)], .ok r.body)
termination_by 16 - attempts
decreasing_by all_goals omega

/-- `getAttachmentQueryResult`: the attachment-scoped Genie SQL result
fetch, retrying only on state `RUNNING`, capped at 15 retries. -/
def getAttachmentQueryResult (oracle : Nat → Fetch GenieSqlResult)
    (apiToken : Option String) (attempts : Nat := 0) :
    List (Nat × ℚ) × Except ApiError GenieSqlResult :=
  match getApiToken apiToken with
  | .error e => ([], .error e)
  | .ok _ =>
    let r := oracle attempts
    if ¬ jsOk r.httpStatus then
      ([(attempts, pollDelay attempts)], .error (.protocol r.httpStatus))
    else if h : (r.body.statement_response.bind (fun s => s.status)).bind (fun s => s.state)
          = some "RUNNING" ∧ attempts < 15 then
      let rest := getAttachmentQueryResult oracle apiToken (attempts + 1)
      ((attempts, pollDelay attempts) :: rest.1, rest.2)
    else ([(attempts, pollDelay attempts)], .ok r.body)
termination_by 16 - attempts
decreasing_by all_goals omega

/-- `executeSQLQuery`: one direct SQL statement execution; throws the SQL
protocol error on non-2xx and the query-execution error when the embedded
status state is `FAILED` (its message defaulting to "Unknown error" when the
embedded detail is absent or empty). -/
def executeSQLQuery (sqlQuery : String) (resp : Fetch RawStatementResult)
    (apiToken : Option String) : Except ApiError RawStatementResult × Nat :=
  match getApiToken apiToken with
  | .error e => (.error e, 0)
  | .ok _ =>
    if ¬ jsOk resp.httpStatus then (.error (.sqlProtocol resp.httpStatus), 1)
    else if (resp.body.status.bind (fun s => s.state)) = some "FAILED" then
      (.error (.queryExecution
        (jsOrStr ((resp.body.status.bind (fun s => s.error)).bind (fun e => e.message))
          "Unknown error")), 1)
    else (.ok resp.body, 1)

/-! ## Conversation session state machine (useChatService) -/
/-- Message sender discriminator. -/

inductive Sender where
  | user
  | bot
deriving DecidableEq, Repr

/-- The `rawResponse` field of a chat message: `null`, the retained success
payload `{apiResponse, sqlResult}`, or the error record `{error: message}`. -/
inductive RawResponse where
  | null
  | payload (apiResponse : GenieMessage) (sqlResult : Option GenieSqlResult)
  | failure (message : String)
deriving DecidableEq, Repr

/-- The `ChatMessage` record of `useChatService`; optional TS fields are
`Option`s, the optional `loading` flag collapses `undefined` to `false`. -/
structure ChatMessage where
  id : String
  text : String
  sender : Sender
  rawResponse : RawResponse
  loading : Bool := false
  extractedContent : Option String := none
  isQueryResponse : Option Bool := none
  sqlExecutionResult : Option RawStatementResult := none
  sqlChartData : Option ChartData := none
  sqlError : Option String := none
deriving DecidableEq, Repr

/-- The state owned by the hook: message list, conversation id, the
session-level loading flag and last error. -/
structure SessionState where
  messages : List ChatMessage
  conversationId : Option String
  loading : Bool
  error : Option String
deriving DecidableEq, Repr

/-- The initial synthetic greeting, id `"1"`. -/
def greetingMessage : ChatMessage :=
  { id := "1"
    text := "Hello! I am Genie, your iPad chatbot assistant. Ask me a question."
    sender := .bot
    rawResponse := .null }

/-- The state the hook starts in. -/
def initialState : SessionState :=
  { messages := [greetingMessage], conversationId := none, loading := false, error := none }

/-- `clearChat`: restores the initial greeting and nulls the conversation id,
error and loading flag. -/
def clearChat (_ : SessionState) : SessionState := initialState

/-- The whitespace set of JS `String.prototype.trim` (ASCII whitespace plus
the Unicode space separators, NBSP, BOM and the line separators). -/
def isJsWhitespace (c : Char) : Bool :=
  [' ', '\t', '\n', '\r', '\x0b', '\x0c', ' ', ' ', ' ', ' ',
    ' ', ' ', ' ', ' ', ' ', ' ', ' ', ' ',
    ' ', ' ', ' ', ' ', ' ', '　', '﻿'].contains c

/-- JS `String.prototype.trim`: strip leading and trailing whitespace. -/
def jsTrim (s : String) : String :=
  ⟨((s.toList.dropWhile isJsWhitespace).reverse.dropWhile isJsWhitespace).reverse⟩

/-- `extractContent` of `useChatService`: a `query` attachment yields its
description (with the fixed fallback for an absent or empty description) and
marks the message as a query response; otherwise a `text` attachment with
truthy content yields that content; otherwise the fixed fallback string. -/
def extractContent (response : GenieMessage) : String × Bool :=
  match response.attachments.head? with
  | some att =>
    match att.query with
    | some q => (jsOrStr q.description "No query description available", true)
    | none =>
      match att.text with
      | some t =>
        match jsNonempty t.content with
        | some c => (c, false)
        | none => ("Could not extract content from response", false)
      | none => ("Could not extract content from response", false)
  | none => ("Could not extract content from response", false)

/-- `hasSQLQuery`: the first attachment carries a `query` object. -/
def hasSQLQuery (response : GenieMessage) : Bool :=
  ((response.attachments.head?).bind (fun a => a.query)).isSome

/-- The truthiness test guarding direct SQL execution:
`isQueryResponse && pollResult?.attachments?.[0]?.query?.query`; yields the
literal SQL text when execution will be attempted. -/
def sqlAttempt (poll : GenieMessage) : Option String :=
  if (extractContent poll).2 then
    jsNonempty ((poll.attachments.head?.bind (fun a => a.query)).bind (fun q => q.query))
  else none

/-- The network environment one `sendMessage` call runs against: the
credential, `Date.now()` at entry, and one oracle per remote operation. -/
structure SendEnv where
  apiKey : Option String
  now : Nat
  startResp : Fetch StartConversationBody
  createResp : Fetch CreateMessageBody
  pollOracle : Nat → Fetch GenieMessage
  execResp : Fetch RawStatementResult
  attachOracle : Nat → Fetch GenieSqlResult
  legacyOracle : Nat → Fetch GenieSqlResult

/-- The `rawResponseData` object assembled before the final message write. -/
structure RawResponseData where
  apiResponse : GenieMessage
  sqlResult : Option GenieSqlResult
deriving DecidableEq, Repr

/-- All data carried into the final (success) message write. -/
structure FinalMessageData where
  pollResult : GenieMessage
  content : String
  isQueryResponse : Bool
  sqlExecutionResult : Option RawStatementResult
  sqlChartData : Option ChartData
  sqlError : Option String
  sqlResult : Option GenieSqlResult
deriving DecidableEq, Repr

/-- JSON encoding of an optional string. -/
def jsonOptStr : Option String → String
  | none => "null"
  | some s => "\"" ++ s ++ "\""

/-- JSON encoding of a query attachment (string escaping and the 2-space
pretty-printing of `JSON.stringify(_, null, 2)` are elided throughout). -/
def jsonQueryAttachment (q : QueryAttachment) : String :=
  "\x7b\"description\":" ++ jsonOptStr q.description ++
    ",\"query\":" ++ jsonOptStr q.query ++ "\x7d"

/-- JSON encoding of a text attachment. -/
def jsonTextAttachment (t : TextAttachment) : String :=
  "\x7b\"content\":" ++ jsonOptStr t.content ++ "\x7d"

/-- JSON encoding of a Genie attachment. -/
def jsonAttachment (a : GenieAttachment) : String :=
  "\x7b\"attachment_id\":" ++ jsonOptStr a.attachment_id ++
    ",\"query\":" ++ (match a.query with | none => "null" | some q => jsonQueryAttachment q) ++
    ",\"text\":" ++ (match a.text with | none => "null" | some t => jsonTextAttachment t) ++
    "\x7d"

/-- JSON encoding of a Genie message. -/
def jsonGenieMessage (m : GenieMessage) : String :=
  "\x7b\"status\":" ++ jsonOptStr m.status ++
    ",\"attachments\":[" ++ String.intercalate "," (m.attachments.map jsonAttachment) ++
    "]\x7d"

/-- JSON encoding of an embedded status error. -/
def jsonRawStatusError (e : RawStatusError) : String :=
  "\x7b\"message\":" ++ jsonOptStr e.message ++ "\x7d"

/-- JSON encoding of a statement status. -/
def jsonRawStatus (s : RawStatus) : String :=
  "\x7b\"state\":" ++ jsonOptStr s.state ++
    ",\"error\":" ++ (match s.error with | none => "null" | some e => jsonRawStatusError e) ++
    "\x7d"

/-- JSON encoding of a `statement_response` wrapper. -/
def jsonStatementResponse (s : StatementResponseBody) : String :=
  "\x7b\"status\":" ++ (match s.status with | none => "null" | some t => jsonRawStatus t) ++ "\x7d"

/-- JSON encoding of a Genie SQL result. -/
def jsonGenieSqlResult (s : GenieSqlResult) : String :=
  "\x7b\"statement_response\":" ++
    (match s.statement_response with | none => "null" | some t => jsonStatementResponse t) ++
    "\x7d"

/-- `JSON.stringify(rawResponseData, null, 2)` of the source, modulo
whitespace formatting and string escaping. -/
def jsonStringify (r : RawResponseData) : String :=
  "\x7b\"apiResponse\":" ++ jsonGenieMessage r.apiResponse ++
    ",\"sqlResult\":" ++
    (match r.sqlResult with | none => "null" | some s => jsonGenieSqlResult s) ++
    "\x7d"

/-- The direct-SQL-execution step of `sendMessage` (its inner try/catch):
when attempted, a success stores the raw result and its transform, a failure
stores the error message; the counter is the network calls made. -/
def sqlExecutionStep (poll : GenieMessage) (env : SendEnv) :
    (Option RawStatementResult × Option ChartData × Option String) × Nat :=
  match sqlAttempt poll with
  | some q =>
    match executeSQLQuery q env.execResp env.apiKey with
    | (.ok data, n) => ((some data, transformDatabricksResultToChartData (some data), none), n)
    | (.error e, n) => ((none, none, some (errMessage e)), n)
  | none => ((none, none, none), 0)

/-- The best-effort Genie-side SQL fetch of `sendMessage`: attachment-scoped
when an attachment id is truthy, else the legacy endpoint; its errors are
swallowed (the result stays `none`). The conversation/message ids in the
source guard are already validated non-falsy at this point. -/
def genieFetchStep (poll : GenieMessage) (env : SendEnv) : Option GenieSqlResult × Nat :=
  if hasSQLQuery poll then
    match jsNonempty (poll.attachments.head?.bind (fun a => a.attachment_id)) with
    | some _ =>
      match getAttachmentQueryResult env.attachOracle env.apiKey 0 with
      | (tr, .ok b) => (some b, tr.length)
      | (tr, .error _) => (none, tr.length)
    | none =>
      match getSQLQueryResult env.legacyOracle env.apiKey 0 with
      | (tr, .ok b) => (some b, tr.length)
      | (tr, .error _) => (none, tr.length)
  else (none, 0)

/-- Assembles the data of the final success write for a completed poll. -/
def mkFinalData (poll : GenieMessage) (env : SendEnv) : FinalMessageData :=
  { pollResult := poll
    content := (extractContent poll).1
    isQueryResponse := (extractContent poll).2
    sqlExecutionResult := (sqlExecutionStep poll env).1.1
    sqlChartData := (sqlExecutionStep poll env).1.2.1
    sqlError := (sqlExecutionStep poll env).1.2.2
    sqlResult := (genieFetchStep poll env).1 }

/-- The tail of the try block after a conversation/message id pair is in
hand: validate the ids (the "Missing conversation or message ID" throw),
poll, then run the SQL steps. Returns the conversation id to store, the
total network calls, and the success data or thrown error. -/
def pollPhase (env : SendEnv) (newCid : Option String) (cidVal midVal : Option String)
    (calls : Nat) : Option String × Nat × Except ApiError FinalMessageData :=
  if jsFalsy cidVal || jsFalsy midVal then (newCid, calls, .error .missingIds)
  else
    match pollForResponse env.pollOracle env.apiKey 0 with
    | (tr, .error e) => (newCid, calls + tr.length, .error e)
    | (tr, .ok poll) =>
      (newCid, calls + tr.length + (sqlExecutionStep poll env).2 + (genieFetchStep poll env).2,
        .ok (mkFinalData poll env))

/-- The try block of `sendMessage`: start a conversation when none is
stored (the returned conversation id is stored even when the subsequent id
validation throws), otherwise create a message on the existing conversation,
then hand over to the poll phase. -/
def runRemoteFlow (conversationId : Option String) (text : String) (env : SendEnv) :
    Option String × Nat × Except ApiError FinalMessageData :=
  if jsFalsy conversationId then
    match startConversation text env.startResp env.apiKey with
    | (.error e, n) => (conversationId, n, .error e)
    | (.ok body, n) => pollPhase env body.conversation_id body.conversation_id body.message_id n
  else
    match createMessage (conversationId.getD "") text env.createResp env.apiKey with
    | (.error e, n) => (conversationId, n, .error e)
    | (.ok body, n) => pollPhase env conversationId conversationId body.id n

/-- The user message appended by a non-regeneration send. -/
def userMessageOf (now : Nat) (text : String) : ChatMessage :=
  { id := toString now, text := text, sender := .user, rawResponse := .null }

/-- The loading placeholder appended by a non-regeneration send. -/
def loadingMessageOf (id : String) : ChatMessage :=
  { id := id, text := "Loading...", sender := .bot, loading := true, rawResponse := .null }

/-- The in-place loading rewrite of the regeneration target (clears the
extracted content and SQL fields, but not `isQueryResponse`). -/
def regenLoadingUpdate (m : ChatMessage) : ChatMessage :=
  { m with
    loading := true
    text := "Regenerating response..."
    extractedContent := none
    sqlChartData := none
    sqlError := none }

/-- The predicate of the regeneration scan: a settled bot message other than
the greeting. -/
def isRegenTarget (m : ChatMessage) : Bool :=
  m.sender == .bot && !m.loading && m.id != "1"

/-- The regeneration scan of `sendMessage`: the last (most recent) message
satisfying `isRegenTarget`, with its index. -/
def findLastRegenTarget : List ChatMessage → Option (Nat × ChatMessage)
  | [] => none
  | m :: rest =>
    match findLastRegenTarget rest with
    | some (j, t) => some (j + 1, t)
    | none => if isRegenTarget m then some (0, m) else none

/-- The `prev.map((msg, index) => ...)` updater, indices starting at `k`. -/
def mapWithIndexFrom (k : Nat) (f : Nat → ChatMessage → ChatMessage) :
    List ChatMessage → List ChatMessage
  | [] => []
  | m :: rest => f k m :: mapWithIndexFrom (k + 1) f rest

/-- The `prev.map((msg, index) => ...)` updater of the source. -/
def mapWithIndex (f : Nat → ChatMessage → ChatMessage) (l : List ChatMessage) :
    List ChatMessage :=
  mapWithIndexFrom 0 f l

/-- The final success write onto the target message. -/
def finalizeMessage (fin : FinalMessageData) (m : ChatMessage) : ChatMessage :=
  { m with
    text := jsonStringify { apiResponse := fin.pollResult, sqlResult := fin.sqlResult }
    loading := false
    rawResponse := .payload fin.pollResult fin.sqlResult
    extractedContent := some fin.content
    isQueryResponse := some fin.isQueryResponse
    sqlExecutionResult := fin.sqlExecutionResult
    sqlChartData := fin.sqlChartData
    sqlError := fin.sqlError }

/-- The error write onto the target message (spread keeps all other fields). -/
def errorizeMessage (msg : String) (m : ChatMessage) : ChatMessage :=
  { m with text := "ERROR: " ++ msg, loading := false, rawResponse := .failure msg }

/-- One step of the settle map: rewrite the message whose id equals the
target id with the final or error payload, leave every other message as-is. -/
def settleOne (targetId : String) (outcome : Except ApiError FinalMessageData)
    (m : ChatMessage) : ChatMessage :=
  if m.id = targetId then
    match outcome with
    | .ok fin => finalizeMessage fin m
    | .error e => errorizeMessage (errMessage e) m
  else m

/-- `sendMessage` of `useChatService`, sequentialized: the guard on blank
text, the regeneration scan, the user/loading enqueue (or the in-place
regeneration rewrite), the remote flow, and the settle write keyed by
`botLoadingMessageId` (the source's `targetMessageId` recomputes exactly
this value). Returns the new state and the number of network calls made. -/
def sendMessage (st : SessionState) (text : String) (isRegeneration : Bool)
    (env : SendEnv) : SessionState × Nat :=
  if jsTrim text = "" then (st, 0)
  else
    let st1 : SessionState := { st with error := none }
    let found := if isRegeneration then findLastRegenTarget st1.messages else none
    let st2 : SessionState :=
      if isRegeneration then st1
      else { st1 with messages := st1.messages ++ [userMessageOf env.now text] }
    let botLoadingMessageId :=
      match found with
      | some (_, m) => m.id
      | none => toString (env.now + 1)
    let st3 : SessionState :=
      if isRegeneration then
        match found with
        | some (i, _) =>
          { st2 with messages :=
              mapWithIndex (fun j m => if j = i then regenLoadingUpdate m else m) st2.messages }
        | none => st2
      else
        { st2 with messages := st2.messages ++ [loadingMessageOf botLoadingMessageId] }
    let st4 : SessionState := { st3 with loading := true }
    let r := runRemoteFlow st4.conversationId text env
    ({ st4 with
        conversationId := r.1
        messages := st4.messages.map (settleOne botLoadingMessageId r.2.2)
        error := match r.2.2 with | .ok _ => st4.error | .error e => some (errMessage e)
        loading := false },
      r.2.1)

/-- A concrete benign environment used by witnesses. -/
def trivialEnv : SendEnv :=
  { apiKey := some "t"
    now := 100
    startResp := ⟨200, { conversation_id := some "c", message_id := some "m" }⟩
    createResp := ⟨200, { id := some "m" }⟩
    pollOracle := fun _ => ⟨200, { status := some "COMPLETED", attachments := [] }⟩
    execResp := ⟨200, { status := none, result := none, manifest := none }⟩
    attachOracle := fun _ => ⟨200, { statement_response := none }⟩
    legacyOracle := fun _ => ⟨200, { statement_response := none }⟩ }

/-- A stale message flagged `loading = true` whose id differs from any
enqueue-time id, used to refute C1. -/
def staleLoadingMessage : ChatMessage :=
  { id := "5", text := "Loading...", sender := .bot, rawResponse := .null, loading := true }

/-- A session state containing the greeting and a stale loading-flagged
message, with an established conversation. -/
def c1CexState : SessionState :=
  { messages := [greetingMessage, staleLoadingMessage]
    conversationId := some "c"
    loading := false
    error := none }

/-- Modelled from the claim's words, for refutation only: a settle step that
locates the placeholder by scanning the message list for the `loading=true`
flag (rather than comparing against an id computed at enqueue time) and
writes the final or error payload onto every message so flagged. -/
def settleByLoadingFlag (outcome : Except ApiError FinalMessageData)
    (msgs : List ChatMessage) : List ChatMessage :=
  msgs.map (fun m =>
    if m.loading then
      match outcome with
      | .ok fin => finalizeMessage fin m
      | .error e => errorizeMessage (errMessage e) m
    else m)

/-- A state with the greeting and one settled bot answer (id "42"), the
regeneration target of the C4 witness. -/
def c4WitnessState : SessionState :=
  { messages := [greetingMessage,
      { id := "42", text := "answer", sender := .bot, rawResponse := .null }]
    conversationId := some "c"
    loading := false
    error := none }

/-- The Genie poll payload used by the C7 scenarios: a completed message
whose query attachment carries a literal SQL statement. -/
def c7PollMessage : GenieMessage :=
  { status := some "COMPLETED"
    attachments := [{ attachment_id := none
                      query := some { description := some "d", query := some "SELECT 1" }
                      text := none }] }

/-- Environment refuting C7 as stated: the direct SQL execution succeeds but
its raw result lacks the `result`/`manifest` sections, so the transformer
yields `null`. -/
def c7CexEnv : SendEnv :=
  { apiKey := some "t"
    now := 100
    startResp := ⟨200, { conversation_id := some "c", message_id := some "m" }⟩
    createResp := ⟨200, { id := some "m" }⟩
    pollOracle := fun _ => ⟨200, c7PollMessage⟩
    execResp := ⟨200, { status := none, result := none, manifest := none }⟩
    attachOracle := fun _ => ⟨200, { statement_response := none }⟩
    legacyOracle := fun _ => ⟨200, { statement_response := none }⟩ }

/-- Environment for the C7 witness: the poll yields a query attachment, the
direct SQL execution succeeds, and the raw result carries a full manifest so
the transformer yields chart data. -/
def c7WitnessEnv : SendEnv :=
  { apiKey := some "t"
    now := 100
    startResp := ⟨200, { conversation_id := some "c", message_id := some "m" }⟩
    createResp := ⟨200, { id := some "m" }⟩
    pollOracle := fun _ => ⟨200, c7PollMessage⟩
    execResp := ⟨200, c5RoundTripInput⟩
    attachOracle := fun _ => ⟨200, { statement_response := none }⟩
    legacyOracle := fun _ => ⟨200, { statement_response := none }⟩ }

/-- C10: the transformer is total: for every input it returns either `null`
or a four-field `ChartData` record, and it returns `null` exactly when the
input is missing, lacks a `result` section or a `manifest`, or its manifest
lacks `schema`/`columns` (the cases where the source body would throw and
the `catch` converts the exception to `null`). -/
theorem transform_total_null_characterization (o : Option RawStatementResult) :
    (transformDatabricksResultToChartData o = none ↔ transformReturnsNull o) ∧
    (transformDatabricksResultToChartData o = none ∨
      ∃ cd : ChartData, transformDatabricksResultToChartData o = some cd ∧
        cd = { columnNames := cd.columnNames, rows := cd.rows,
               rowCount := cd.rowCount, totalRowCount := cd.totalRowCount }) := by
  constructor
  · cases o with
    | none => simp [transformDatabricksResultToChartData, transformReturnsNull]
    | some r =>
      cases hres : r.result with
      | none => simp [transformDatabricksResultToChartData, transformReturnsNull, hres]
      | some res =>
        cases hman : r.manifest with
        | none => simp [transformDatabricksResultToChartData, transformReturnsNull, hres, hman]
        | some man =>
          cases hsch : man.schema with
          | none =>
            simp [transformDatabricksResultToChartData, transformReturnsNull,
              transformTryBlock, hres, hman, hsch]
          | some sch =>
            cases hcols : sch.columns with
            | none =>
              simp [transformDatabricksResultToChartData, transformReturnsNull,
                transformTryBlock, hres, hman, hsch, hcols]
            | some cols =>
              simp [transformDatabricksResultToChartData, transformReturnsNull,
                transformTryBlock, hres, hman, hsch, hcols]
  · cases h : transformDatabricksResultToChartData o with
    | none => exact Or.inl rfl
    | some cd => exact Or.inr ⟨cd, rfl, rfl⟩

/-- C5 counterexample: on an input whose `result` section carries the
server-reported total `total_row_count = 0` together with one materialized
row, the code sets `totalRowCount` to the materialized row count `1`, not to
the server-reported total `0` as the claim states, because the source uses
the JS-falsy fallback `result.result.total_row_count || data.length`. -/
theorem transform_totalRowCount_zero_cex :
    c5CexInput.result = some { data_array := some [["x"]], total_row_count := some 0 } ∧
    (transformDatabricksResultToChartData (some c5CexInput)).map
      (fun c => c.totalRowCount) = some 1 := by
  constructor <;> rfl

/-- C5 (amended): for every raw statement result with a `result` section and
a manifest carrying `schema.columns`, the transformer takes the column names
verbatim in schema order, the rows verbatim from `data_array` (empty when
absent), sets `rowCount` to the materialized row count, and sets
`totalRowCount` to the server-reported total when it is present and nonzero,
falling back to `rowCount` otherwise. -/
theorem transform_verbatim (r : RawStatementResult) (res : RawResultSection)
    (man : RawManifest) (sch : RawSchema) (cols : List RawColumn)
    (h1 : r.result = some res) (h2 : r.manifest = some man)
    (h3 : man.schema = some sch) (h4 : sch.columns = some cols) :
    transformDatabricksResultToChartData (some r) =
      some { columnNames := cols.map (fun c => c.name)
             rows := res.data_array.getD []
             rowCount := (res.data_array.getD []).length
             totalRowCount :=
               match res.total_row_count with
               | some t => if t = 0 then (res.data_array.getD []).length else t
               | none => (res.data_array.getD []).length } := by
  simp only [transformDatabricksResultToChartData, transformTryBlock, h1, h2, h3, h4]
  cases ht : res.total_row_count with
  | none => simp [jsOrNat, ht]
  | some t => by_cases h0 : t = 0 <;> simp [jsOrNat, ht, h0]

/-- Witness for C5's amended theorem at the claim's own round-trip example:
the input yields exactly
`{columnNames := ["a","b"], rows := [["x","1"],["y","2"]], rowCount := 2, totalRowCount := 2}`. -/
theorem transform_verbatim_witness :
    transformDatabricksResultToChartData (some c5RoundTripInput) =
      some { columnNames := ["a", "b"], rows := [["x", "1"], ["y", "2"]],
             rowCount := 2, totalRowCount := 2 } := by
  exact transform_verbatim c5RoundTripInput
    { data_array := some [["x", "1"], ["y", "2"]], total_row_count := none }
    { schema := some { columns := some [{ name := "a" }, { name := "b" }] } }
    { columns := some [{ name := "a" }, { name := "b" }] }
    [{ name := "a" }, { name := "b" }] rfl rfl rfl rfl

/-- C8 counterexample: a raw result whose server-reported `total_row_count`
is `1` while `data_array` materializes two rows produces a `ChartData` with
`rowCount = 2` and `totalRowCount = 1`, so `totalRowCount ≥ rowCount` fails
on the transformer's output. -/
theorem transform_total_lt_rowCount_cex :
    (transformDatabricksResultToChartData (some c8CexInput)).map
      (fun c => decide (c.rowCount ≤ c.totalRowCount)) = some false := by
  rfl

/-- C8 (amended): `totalRowCount ≥ rowCount` holds for every `ChartData` the
transformer produces, provided the server-reported total, whenever present
and nonzero, is at least the number of materialized rows (when it is absent
or zero the code falls back to `totalRowCount = rowCount`). -/
theorem transform_totalRowCount_ge_rowCount (r : RawStatementResult) (out : ChartData)
    (h : transformDatabricksResultToChartData (some r) = some out)
    (hsane : ∀ res, r.result = some res → ∀ t, res.total_row_count = some t →
      t ≠ 0 → (res.data_array.getD []).length ≤ t) :
    out.rowCount ≤ out.totalRowCount := by
  cases hres : r.result with
  | none => simp [transformDatabricksResultToChartData, hres] at h
  | some res =>
    cases hman : r.manifest with
    | none => simp [transformDatabricksResultToChartData, hres, hman] at h
    | some man =>
      cases hsch : man.schema with
      | none =>
        simp [transformDatabricksResultToChartData, transformTryBlock, hres, hman, hsch] at h
      | some sch =>
        cases hcols : sch.columns with
        | none =>
          simp [transformDatabricksResultToChartData, transformTryBlock,
            hres, hman, hsch, hcols] at h
        | some cols =>
          simp only [transformDatabricksResultToChartData, transformTryBlock,
            hres, hman, hsch, hcols, Option.some.injEq] at h
          subst h
          cases ht : res.total_row_count with
          | none => simp [jsOrNat, ht]
          | some t =>
            by_cases h0 : t = 0
            · simp [jsOrNat, ht, h0]
            · simpa [jsOrNat, ht, h0] using hsane res hres t ht h0

theorem transform_totalRowCount_ge_rowCount_witness :
    ({ columnNames := ["a"], rows := [["x"], ["y"]],
       rowCount := 2, totalRowCount := 5 } : ChartData).rowCount ≤
      ({ columnNames := ["a"], rows := [["x"], ["y"]],
         rowCount := 2, totalRowCount := 5 } : ChartData).totalRowCount := by
  exact transform_totalRowCount_ge_rowCount c8WitnessInput
    _ rfl (by intro res hres t ht h0; cases hres; cases ht; decide)

/-- C6: every client operation called with a missing or empty credential
fails with the credential error before any network call: the fetch count
(or fetch trace) stays at zero, and no default credential is substituted. -/
theorem client_ops_fail_fast_without_credential (tok : Option String)
    (htok : tok = none ∨ tok = some "")
    (q cid sqlq : String) (r1 : Fetch StartConversationBody) (r2 : Fetch CreateMessageBody)
    (po : Nat → Fetch GenieMessage) (so ao : Nat → Fetch GenieSqlResult)
    (r3 : Fetch RawStatementResult) (a : Nat) :
    startConversation q r1 tok = (.error .credential, 0) ∧
    createMessage cid q r2 tok = (.error .credential, 0) ∧
    pollForResponse po tok a = ([], .error .credential) ∧
    getSQLQueryResult so tok a = ([], .error .credential) ∧
    getAttachmentQueryResult ao tok a = ([], .error .credential) ∧
    executeSQLQuery sqlq r3 tok = (.error .credential, 0) := by
  have h : getApiToken tok = .error .credential := by
    rcases htok with rfl | rfl <;> rfl
  refine ⟨?_, ?_, ?_, ?_, ?_, ?_⟩
  · simp [startConversation, h]
  · simp [createMessage, h]
  · rw [pollForResponse, h]
  · rw [getSQLQueryResult, h]
  · rw [getAttachmentQueryResult, h]
  · simp [executeSQLQuery, h]

/-- Witness for C6 at the empty credential with concrete arguments. -/
theorem client_ops_fail_fast_without_credential_witness :
    startConversation "hi" ⟨200, { conversation_id := some "c", message_id := some "m" }⟩
      (some "") = (.error .credential, 0) ∧
    createMessage "c" "hi" ⟨200, { id := some "m" }⟩ (some "") = (.error .credential, 0) ∧
    pollForResponse (fun _ => ⟨200, { status := some "COMPLETED", attachments := [] }⟩)
      (some "") 0 = ([], .error .credential) ∧
    getSQLQueryResult (fun _ => ⟨200, { statement_response := none }⟩) (some "") 0 =
      ([], .error .credential) ∧
    getAttachmentQueryResult (fun _ => ⟨200, { statement_response := none }⟩) (some "") 0 =
      ([], .error .credential) ∧
    executeSQLQuery "SELECT 1" ⟨200, { status := none, result := none, manifest := none }⟩
      (some "") = (.error .credential, 0) :=
  client_ops_fail_fast_without_credential (some "") (Or.inr rfl) "hi" "c" "SELECT 1"
    ⟨200, { conversation_id := some "c", message_id := some "m" }⟩
    ⟨200, { id := some "m" }⟩
    (fun _ => ⟨200, { status := some "COMPLETED", attachments := [] }⟩)
    (fun _ => ⟨200, { statement_response := none }⟩)
    (fun _ => ⟨200, { statement_response := none }⟩)
    ⟨200, { status := none, result := none, manifest := none }⟩ 0

/-- Exhaustion lemma for the 409 branch: from attempt `a` with `a + n = 15`,
if every fetch up to index 15 answers HTTP 409, the loop performs exactly
the fetches `a, a+1, ..., 15` (with their scheduled delays) and then throws
the protocol error carrying 409. -/
theorem pollForResponse_409_from (oracle : Nat → Fetch GenieMessage) (t : String)
    (ht : t ≠ "") : ∀ n a, a + n = 15 →
    (∀ k, a ≤ k → k ≤ 15 → (oracle k).httpStatus = 409) →
    pollForResponse oracle (some t) a =
      ((List.range' a (n + 1)).map (fun k => (k, pollDelay k)), .error (.protocol 409)) := by
  have htok : getApiToken (some t) = .ok t := by simp [getApiToken, ht]
  intro n
  induction n with
  | zero =>
    intro a ha h
    have h15 : a = 15 := by omega
    subst h15
    have h409 := h 15 (by omega) (by omega)
    rw [pollForResponse, htok]
    simp only [h409]
    rw [dif_neg (by omega)]
    rw [if_pos (by simp [jsOk])]
    simp [List.range']
  | succ n ih =>
    intro a ha h
    have hlt : a < 15 := by omega
    have h409 := h a (by omega) (by omega)
    rw [pollForResponse, htok]
    simp only [h409]
    rw [dif_pos ⟨trivial, hlt⟩]
    rw [ih (a + 1) (by omega) (fun k hk1 hk2 => h k (by omega) hk2)]
    simp [List.range']

/-- C3: when the server answers HTTP 409 on every fetch, `pollForResponse`
performs the initial fetch plus exactly 15 retries (attempt indices 0..15),
awaiting before the k-th retry the delay `min(1000 * 1.5^k, 10000)` ms, and
then fails with the protocol error carrying the status code 409. -/
theorem pollForResponse_409_backoff (oracle : Nat → Fetch GenieMessage) (t : String)
    (ht : t ≠ "") (h409 : ∀ k, k ≤ 15 → (oracle k).httpStatus = 409) :
    pollForResponse oracle (some t) 0 =
      ((List.range 16).map (fun k => (k, pollDelay k)), .error (.protocol 409)) ∧
    ∀ k, 1 ≤ k → pollDelay k = min (1000 * (3 / 2 : ℚ) ^ k) 10000 := by
  constructor
  · rw [List.range_eq_range']
    exact pollForResponse_409_from oracle t ht 15 0 (by omega)
      (fun k _ hk2 => h409 k hk2)
  · intro k hk
    simp [pollDelay, hk, Nat.lt_of_lt_of_le Nat.zero_lt_one hk]

/-- Witness for C3: a server that always answers 409, polled with the token
"token", makes fetches 0..15 and fails with the 409 protocol error. -/
theorem pollForResponse_409_backoff_witness :
    pollForResponse (fun _ => ⟨409, { status := none, attachments := [] }⟩) (some "token") 0 =
      ((List.range 16).map (fun k => (k, pollDelay k)), .error (.protocol 409)) ∧
    ∀ k, 1 ≤ k → pollDelay k = min (1000 * (3 / 2 : ℚ) ^ k) 10000 :=
  pollForResponse_409_backoff (fun _ => ⟨409, { status := none, attachments := [] }⟩)
    "token" (by decide) (fun k _ => rfl)

/-- Exhaustion lemma for the non-terminal-status branch: from attempt `a`
with `a + n = 20`, if every fetch up to index 20 is 2xx with a status that
is neither `COMPLETED` nor `FAILED`, the loop performs exactly the fetches
`a, ..., 20` and then returns the payload of fetch 20 as-is. -/
theorem pollForResponse_nonterminal_from (oracle : Nat → Fetch GenieMessage) (t : String)
    (ht : t ≠ "") : ∀ n a, a + n = 20 →
    (∀ k, a ≤ k → k ≤ 20 → jsOk (oracle k).httpStatus ∧
      (oracle k).body.status ≠ some "COMPLETED" ∧ (oracle k).body.status ≠ some "FAILED") →
    pollForResponse oracle (some t) a =
      ((List.range' a (n + 1)).map (fun k => (k, pollDelay k)), .ok (oracle 20).body) := by
  have htok : getApiToken (some t) = .ok t := by simp [getApiToken, ht]
  intro n
  induction n with
  | zero =>
    intro a ha h
    have h20 : a = 20 := by omega
    subst h20
    obtain ⟨hok, hc, hf⟩ := h 20 (by omega) (by omega)
    rw [pollForResponse, htok]
    rw [dif_neg (by rintro ⟨h409, -⟩; rw [h409] at hok; exact absurd hok (by simp [jsOk]))]
    rw [if_neg (not_not_intro hok)]
    rw [dif_neg (by omega)]
    simp [List.range']
  | succ n ih =>
    intro a ha h
    have hlt : a < 20 := by omega
    obtain ⟨hok, hc, hf⟩ := h a (by omega) (by omega)
    rw [pollForResponse, htok]
    rw [dif_neg (by rintro ⟨h409, -⟩; rw [h409] at hok; exact absurd hok (by simp [jsOk]))]
    rw [if_neg (not_not_intro hok)]
    rw [dif_pos ⟨⟨hc, hf⟩, hlt⟩]
    rw [ih (a + 1) (by omega) (fun k hk1 hk2 => h k (by omega) hk2)]
    simp [List.range']

/-- C2: when every fetch up to index 20 answers 2xx with a status that is
neither `COMPLETED` nor `FAILED` (e.g. 21 consecutive `RUNNING` responses),
`pollForResponse` performs exactly 21 fetches — the initial attempt plus 20
retries with their scheduled backoff delays, stopping after the 20th retry —
and returns the 21st payload as-is instead of throwing or retrying further. -/
theorem pollForResponse_exhaustion_returns_last (oracle : Nat → Fetch GenieMessage)
    (t : String) (ht : t ≠ "")
    (hrun : ∀ k, k ≤ 20 → jsOk (oracle k).httpStatus ∧
      (oracle k).body.status ≠ some "COMPLETED" ∧ (oracle k).body.status ≠ some "FAILED") :
    pollForResponse oracle (some t) 0 =
      ((List.range 21).map (fun k => (k, pollDelay k)), .ok (oracle 20).body) := by
  rw [List.range_eq_range']
  exact pollForResponse_nonterminal_from oracle t ht 20 0 (by omega)
    (fun k _ hk2 => hrun k hk2)

/-- Witness for C2: a server answering `status = "RUNNING"` with HTTP 200 on
every fetch, polled with the token "token", stops after 21 fetches and
returns the running payload. -/
theorem pollForResponse_exhaustion_returns_last_witness :
    pollForResponse (fun _ => ⟨200, { status := some "RUNNING", attachments := [] }⟩)
      (some "token") 0 =
      ((List.range 21).map (fun k => (k, pollDelay k)),
        .ok { status := some "RUNNING", attachments := [] }) :=
  pollForResponse_exhaustion_returns_last
    (fun _ => ⟨200, { status := some "RUNNING", attachments := [] }⟩) "token"
    (by decide) (fun _ _ => ⟨(by decide : jsOk 200),
      (by decide : (some "RUNNING" : Option String) ≠ some "COMPLETED"),
      (by decide : (some "RUNNING" : Option String) ≠ some "FAILED")⟩)

theorem dropWhile_eq_nil_of_all (p : Char → Bool) (l : List Char) (h : l.all p = true) :
    l.dropWhile p = [] := by
  induction l with
  | nil => rfl
  | cons a l ih =>
    simp only [List.all_cons, Bool.and_eq_true] at h
    simp [List.dropWhile_cons, h.1, ih h.2]

theorem jsTrim_blank (s : String) (h : s.toList.all isJsWhitespace = true) :
    jsTrim s = "" := by
  unfold jsTrim
  rw [dropWhile_eq_nil_of_all _ _ h]
  rfl

/-- C9: calling `sendMessage` with text that is empty or consists only of
whitespace is a complete no-op: the state (messages, conversation id,
loading flag, error) is returned unchanged and zero network calls are made. -/
theorem sendMessage_blank_noop (st : SessionState) (isRegeneration : Bool)
    (env : SendEnv) (text : String) (h : text.toList.all isJsWhitespace = true) :
    sendMessage st text isRegeneration env = (st, 0) := by
  have hb := jsTrim_blank text h
  simp [sendMessage, hb]

/-- Witness for C9: a single-space message leaves the initial state and the
network untouched. -/
theorem sendMessage_blank_noop_witness :
    sendMessage initialState " " false trivialEnv = (initialState, 0) :=
  sendMessage_blank_noop initialState false trivialEnv " " (by decide)

/-- Evaluation helper: a poll whose very first fetch is 2xx with a terminal
status performs exactly that one fetch (no delay) and returns its body. -/
theorem pollForResponse_terminal_first (oracle : Nat → Fetch GenieMessage)
    (tok : Option String) (t : String) (ht : getApiToken tok = .ok t)
    (hok : jsOk (oracle 0).httpStatus)
    (hterm : (oracle 0).body.status = some "COMPLETED" ∨
      (oracle 0).body.status = some "FAILED") :
    pollForResponse oracle tok 0 = ([(0, 0)], .ok (oracle 0).body) := by
  rw [pollForResponse, ht]
  rw [dif_neg (by rintro ⟨h409, -⟩; rw [h409] at hok; exact absurd hok (by simp [jsOk]))]
  rw [if_neg (not_not_intro hok)]
  rw [dif_neg (by rintro ⟨⟨hc, hf⟩, -⟩; rcases hterm with h | h; exacts [hc h, hf h])]
  simp [pollDelay]

/-- C1 counterexample: starting from a state holding a stale message flagged
`loading = true` (id "5"), a send that settles leaves that flagged message
untouched — still loading, with no extracted content — because the source
locates the message to replace by id equality with the enqueue-time id
("101" here), not by scanning for the loading flag; the settle step the
claim describes would instead have rewritten the flagged message
(`loading = false`). -/
theorem send_settle_not_by_loading_flag_cex :
    ((sendMessage c1CexState "hello" false trivialEnv).1.messages[1]?).map
        (fun m => (m.id, m.loading, m.extractedContent)) =
      some ("5", true, none) ∧
    ((settleByLoadingFlag (runRemoteFlow c1CexState.conversationId "hello" trivialEnv).2.2
        (c1CexState.messages ++ [userMessageOf 100 "hello", loadingMessageOf "101"]))[1]?).map
        (fun m => (m.id, m.loading)) = some ("5", false) := by
  have hpoll : pollForResponse
      (fun _ => (⟨200, { status := some "COMPLETED", attachments := [] }⟩ : Fetch GenieMessage))
      (some "t") 0 = ([(0, 0)], .ok { status := some "COMPLETED", attachments := [] }) :=
    pollForResponse_terminal_first _ _ "t" rfl (by decide) (Or.inl rfl)
  have hrun : (runRemoteFlow c1CexState.conversationId "hello" trivialEnv).2.2 =
      .ok (mkFinalData { status := some "COMPLETED", attachments := [] } trivialEnv) := by
    simp [runRemoteFlow, pollPhase, jsFalsy, createMessage, getApiToken, hpoll,
      c1CexState, trivialEnv, jsOk]
  constructor
  · rfl
  · rw [hrun]
    rfl

/-- C1 (amended): for every send that settles (success or error), the final
write rewrites exactly the messages whose id equals the id computed at
enqueue time (`(Date.now()+1).toString()`), carrying on success the
extracted content, the query flag, the SQL chart data or error, and the raw
payload; every message with a different id — in particular any stale message
flagged `loading=true` — is left unchanged at its position. -/
theorem send_settle_by_enqueue_id (st : SessionState) (text : String) (env : SendEnv)
    (htext : ¬ jsTrim text = "") :
    ((sendMessage st text false env).1.messages =
      (st.messages ++ [userMessageOf env.now text,
          loadingMessageOf (toString (env.now + 1))]).map
        (settleOne (toString (env.now + 1))
          (runRemoteFlow st.conversationId text env).2.2)) ∧
    (∀ (i : Nat) (m : ChatMessage), st.messages[i]? = some m →
      ¬ m.id = toString (env.now + 1) →
      (sendMessage st text false env).1.messages[i]? = some m) := by
  have hmain : (sendMessage st text false env).1.messages =
      (st.messages ++ [userMessageOf env.now text,
          loadingMessageOf (toString (env.now + 1))]).map
        (settleOne (toString (env.now + 1))
          (runRemoteFlow st.conversationId text env).2.2) := by
    simp [sendMessage, htext]
  refine ⟨hmain, fun i m hm hid => ?_⟩
  have hi : i < st.messages.length := by
    by_contra hge
    rw [List.getElem?_eq_none (by omega)] at hm
    exact Option.noConfusion hm
  rw [hmain, List.getElem?_map, List.getElem?_append, if_pos hi, hm]
  simp [settleOne, hid]

/-- Witness for C1's amended theorem: a non-blank send against the initial
state and a benign environment settles by rewriting the enqueue-time id. -/
theorem send_settle_by_enqueue_id_witness :
    (sendMessage initialState "hello" false trivialEnv).1.messages =
      (initialState.messages ++ [userMessageOf 100 "hello", loadingMessageOf "101"]).map
        (settleOne "101" (runRemoteFlow initialState.conversationId "hello" trivialEnv).2.2) :=
  (send_settle_by_enqueue_id initialState "hello" trivialEnv (by decide)).1

theorem length_mapWithIndexFrom (f : Nat → ChatMessage → ChatMessage) :
    ∀ (k : Nat) (l : List ChatMessage), (mapWithIndexFrom k f l).length = l.length := by
  intro k l
  induction l generalizing k with
  | nil => rfl
  | cons a l ih => simp [mapWithIndexFrom, ih]

theorem getElem?_mapWithIndexFrom (f : Nat → ChatMessage → ChatMessage) :
    ∀ (k i : Nat) (l : List ChatMessage),
    (mapWithIndexFrom k f l)[i]? = (l[i]?).map (f (k + i)) := by
  intro k i l
  induction l generalizing k i with
  | nil => simp [mapWithIndexFrom]
  | cons a l ih =>
    cases i with
    | zero => simp [mapWithIndexFrom]
    | succ i =>
      have harith : k + 1 + i = k + (i + 1) := by omega
      simp [mapWithIndexFrom, ih (k + 1) i, harith]

theorem findLastRegenTarget_getElem? :
    ∀ (l : List ChatMessage) (j : Nat) (t : ChatMessage),
    findLastRegenTarget l = some (j, t) → l[j]? = some t ∧ isRegenTarget t = true := by
  intro l
  induction l with
  | nil => intro j t h; simp [findLastRegenTarget] at h
  | cons a l ih =>
    intro j t h
    cases hrec : findLastRegenTarget l with
    | some p =>
      obtain ⟨j', t'⟩ := p
      rw [findLastRegenTarget, hrec] at h
      simp only [Option.some.injEq, Prod.mk.injEq] at h
      obtain ⟨hj, ht⟩ := h
      subst hj
      subst ht
      have hih := ih j' t' hrec
      simpa using hih
    | none =>
      rw [findLastRegenTarget, hrec] at h
      by_cases hta : isRegenTarget a
      · rw [if_pos hta] at h
        simp only [Option.some.injEq, Prod.mk.injEq] at h
        obtain ⟨hj, ht⟩ := h
        subst hj
        subst ht
        exact ⟨by simp, hta⟩
      · rw [if_neg hta] at h
        exact absurd h (by simp)

theorem nodup_ids_ne (l : List ChatMessage)
    (hn : (l.map (fun m => m.id)).Nodup) (i j : Nat) (mi mj : ChatMessage)
    (hi : l[i]? = some mi) (hj : l[j]? = some mj) (hij : i ≠ j) : ¬ mi.id = mj.id := by
  intro he
  have hi' : (l.map (fun m => m.id))[i]? = some mi.id := by
    rw [List.getElem?_map, hi]; rfl
  have hj' : (l.map (fun m => m.id))[j]? = some mj.id := by
    rw [List.getElem?_map, hj]; rfl
  have heq : (l.map (fun m => m.id))[i]? = (l.map (fun m => m.id))[j]? := by
    rw [hi', hj', he]
  have hlen : i < (l.map (fun m => m.id)).length := by
    by_contra hz
    rw [List.getElem?_eq_none (by omega)] at hi'
    exact Option.noConfusion hi'
  exact hij (List.getElem?_inj hlen hn heq)

/-- C4: a regeneration request locates the most recent non-loading bot
message with id different from "1" and mutates only that entry: the message
list keeps its length (nothing is appended, also when no eligible target
exists), every message id is preserved in place, every position other than
the located target is untouched, the list is fully unchanged when no target
exists, and the initial greeting (id "1") is never mutated. The hypotheses
are the session invariants: ids are unique, and the enqueue-time id derived
from `Date.now()+1` is fresh. -/
theorem sendMessage_regeneration_in_place (st : SessionState) (text : String) (env : SendEnv)
    (hnodup : (st.messages.map (fun m => m.id)).Nodup)
    (hfresh : toString (env.now + 1) ∉ st.messages.map (fun m => m.id)) :
    ((sendMessage st text true env).1.messages.length = st.messages.length) ∧
    (∀ (i : Nat), ((sendMessage st text true env).1.messages[i]?).map (fun m => m.id) =
      (st.messages[i]?).map (fun m => m.id)) ∧
    (∀ (j : Nat) (t : ChatMessage), findLastRegenTarget st.messages = some (j, t) →
      ∀ (i : Nat), i ≠ j →
        (sendMessage st text true env).1.messages[i]? = st.messages[i]?) ∧
    (findLastRegenTarget st.messages = none →
      (sendMessage st text true env).1.messages = st.messages) ∧
    (∀ (i : Nat) (t : ChatMessage), st.messages[i]? = some t → t.id = "1" →
      (sendMessage st text true env).1.messages[i]? = some t) := by
  by_cases hb : jsTrim text = ""
  · have hpost : sendMessage st text true env = (st, 0) := by simp [sendMessage, hb]
    rw [hpost]
    exact ⟨rfl, fun _ => rfl, fun _ _ _ _ _ => rfl, fun _ => rfl, fun _ _ h _ => h⟩
  · cases hfind : findLastRegenTarget st.messages with
    | none =>
      have hpost : (sendMessage st text true env).1.messages =
          st.messages.map (settleOne (toString (env.now + 1))
            (runRemoteFlow st.conversationId text env).2.2) := by
        simp [sendMessage, hb, hfind]
      have hsettle : ∀ m ∈ st.messages,
          settleOne (toString (env.now + 1))
            (runRemoteFlow st.conversationId text env).2.2 m = m := by
        intro m hm
        have hne : ¬ m.id = toString (env.now + 1) := by
          intro he
          exact hfresh (he ▸ List.mem_map_of_mem (fun m => m.id) hm)
        simp [settleOne, hne]
      have hmap : (sendMessage st text true env).1.messages = st.messages := by
        rw [hpost]
        calc st.messages.map _ = st.messages.map id := List.map_congr_left hsettle
        _ = st.messages := List.map_id _
      refine ⟨by rw [hmap], fun i => by rw [hmap],
        fun j t hj => absurd hj (by simp),
        fun _ => hmap, fun i t h _ => by rw [hmap]; exact h⟩
    | some p =>
      obtain ⟨j, t⟩ := p
      obtain ⟨hget, htar⟩ := findLastRegenTarget_getElem? st.messages j t hfind
      have htid : ¬ t.id = "1" := by
        simp only [isRegenTarget, Bool.and_eq_true, bne_iff_ne] at htar
        exact htar.2
      have hpost : (sendMessage st text true env).1.messages =
          (mapWithIndexFrom 0 (fun jj m => if jj = j then regenLoadingUpdate m else m)
            st.messages).map
            (settleOne t.id (runRemoteFlow st.conversationId text env).2.2) := by
        simp [sendMessage, hb, hfind, mapWithIndex]
      have hpt : ∀ (i : Nat), (sendMessage st text true env).1.messages[i]? =
          (st.messages[i]?).map (fun m =>
            settleOne t.id (runRemoteFlow st.conversationId text env).2.2
              (if i = j then regenLoadingUpdate m else m)) := by
        intro i
        rw [hpost, List.getElem?_map, getElem?_mapWithIndexFrom]
        cases st.messages[i]? <;> simp
      have hlen : (sendMessage st text true env).1.messages.length = st.messages.length := by
        rw [hpost, List.length_map, length_mapWithIndexFrom]
      have huntouched : ∀ (i : Nat), i ≠ j →
          (sendMessage st text true env).1.messages[i]? = st.messages[i]? := by
        intro i hij
        rw [hpt i]
        cases hm : st.messages[i]? with
        | none => rfl
        | some m =>
          have hne : ¬ m.id = t.id := nodup_ids_ne st.messages hnodup i j m t hm hget hij
          simp [hij, settleOne, hne]
      have hid : ∀ (i : Nat),
          ((sendMessage st text true env).1.messages[i]?).map (fun m => m.id) =
          (st.messages[i]?).map (fun m => m.id) := by
        intro i
        by_cases hij : i = j
        · subst hij
          rw [hpt i, hget]
          cases houtcome : (runRemoteFlow st.conversationId text env).2.2 <;>
            simp [settleOne, regenLoadingUpdate, finalizeMessage, errorizeMessage, houtcome]
        · rw [huntouched i hij]
      refine ⟨hlen, hid, ?_, ?_, ?_⟩
      · intro j' t' hfind' i hij
        have hj' : j = j' ∧ t = t' := by simpa using hfind'
        obtain ⟨hj', -⟩ := hj'
        subst hj'
        exact huntouched i hij
      · intro hnone
        exact absurd hnone (by simp)
      · intro i g hgi hgid
        have hij : i ≠ j := by
          intro he
          subst he
          rw [hget] at hgi
          injection hgi with he'
          subst he'
          exact htid hgid
        rw [huntouched i hij, hgi]

/-- Witness for C4: regenerating on a state with unique ids and a fresh
timestamp id keeps the message-list length unchanged. -/
theorem sendMessage_regeneration_in_place_witness :
    (sendMessage c4WitnessState "redo" true trivialEnv).1.messages.length =
      c4WitnessState.messages.length :=
  (sendMessage_regeneration_in_place c4WitnessState "redo" trivialEnv
    (by decide) (by decide)).1

theorem pollPhase_ok (env : SendEnv) (newCid cidVal midVal : Option String) (calls : Nat)
    (fin : FinalMessageData)
    (h : (pollPhase env newCid cidVal midVal calls).2.2 = .ok fin) :
    fin = mkFinalData fin.pollResult env := by
  unfold pollPhase at h
  split at h
  · simp at h
  · split at h
    · simp at h
    · simp only [Except.ok.injEq] at h
      subst h
      rfl

theorem runRemoteFlow_ok (cid : Option String) (text : String) (env : SendEnv)
    (fin : FinalMessageData) (h : (runRemoteFlow cid text env).2.2 = .ok fin) :
    fin = mkFinalData fin.pollResult env := by
  unfold runRemoteFlow at h
  split at h <;> split at h <;>
    first
      | simp at h
      | exact pollPhase_ok env _ _ _ _ fin h

theorem sqlAttempt_isQueryResponse (poll : GenieMessage) (q : String)
    (h : sqlAttempt poll = some q) : (extractContent poll).2 = true := by
  unfold sqlAttempt at h
  by_cases hq : (extractContent poll).2 = true
  · exact hq
  · rw [if_neg hq] at h
    exact absurd h (by simp)

/-- C7 (amended): for the message settled by a successful send, at most one
of `sqlChartData` and `sqlError` is populated — never both — and either is
populated only when `isQueryResponse` is true; when SQL execution was
attempted, `sqlError` is set exactly when the execution call failed, but on
a successful execution `sqlChartData` carries the transformer's output,
which can itself be `null` (e.g. when the raw result lacks its `result`
section or manifest), so "exactly one exists" does not hold; when execution
was not attempted both stay unset. -/
theorem sql_exec_outcome_exclusive (cid : Option String) (text : String) (env : SendEnv)
    (fin : FinalMessageData) (h : (runRemoteFlow cid text env).2.2 = .ok fin) :
    (¬ (fin.sqlChartData.isSome = true ∧ fin.sqlError.isSome = true)) ∧
    ((fin.sqlChartData.isSome = true ∨ fin.sqlError.isSome = true) →
      fin.isQueryResponse = true) ∧
    (∀ q, sqlAttempt fin.pollResult = some q →
      (match (executeSQLQuery q env.execResp env.apiKey).1 with
       | .ok d => fin.sqlError = none ∧
           fin.sqlChartData = transformDatabricksResultToChartData (some d)
       | .error e => fin.sqlError = some (errMessage e) ∧ fin.sqlChartData = none)) ∧
    (sqlAttempt fin.pollResult = none → fin.sqlChartData = none ∧ fin.sqlError = none) := by
  have hfin := runRemoteFlow_ok cid text env fin h
  rw [hfin]
  simp only [mkFinalData]
  cases hsa : sqlAttempt fin.pollResult with
  | none =>
    refine ⟨?_, ?_, ?_, ?_⟩
    · simp [sqlExecutionStep, hsa]
    · intro hpop
      rcases hpop with hp | hp <;> simp [sqlExecutionStep, hsa] at hp
    · intro q hq
      exact absurd hq (by simp)
    · intro hnone
      simp [sqlExecutionStep, hsa]
  | some q0 =>
    have hq : (extractContent fin.pollResult).2 = true :=
      sqlAttempt_isQueryResponse fin.pollResult q0 hsa
    cases hex : executeSQLQuery q0 env.execResp env.apiKey with
    | mk res n =>
      cases res with
      | ok d =>
        refine ⟨?_, fun _ => hq, ?_, ?_⟩
        · simp [sqlExecutionStep, hsa, hex]
        · intro q hq'
          have hqq : q0 = q := by injection hq'
          subst hqq
          rw [hex]
          exact ⟨by simp [sqlExecutionStep, hsa, hex], by simp [sqlExecutionStep, hsa, hex]⟩
        · intro hnone
          exact absurd hnone (by simp)
      | error e =>
        refine ⟨?_, fun _ => hq, ?_, ?_⟩
        · simp [sqlExecutionStep, hsa, hex]
        · intro q hq'
          have hqq : q0 = q := by injection hq'
          subst hqq
          rw [hex]
          exact ⟨by simp [sqlExecutionStep, hsa, hex], by simp [sqlExecutionStep, hsa, hex]⟩
        · intro hnone
          exact absurd hnone (by simp)

/-- Evaluation helper: a legacy Genie SQL fetch whose first response is 2xx
with a non-running, non-pending embedded state performs one fetch and
returns its body. -/
theorem getSQLQueryResult_first (oracle : Nat → Fetch GenieSqlResult) (tok : Option String)
    (t : String) (ht : getApiToken tok = .ok t) (hok : jsOk (oracle 0).httpStatus)
    (hstate :
      ¬ ((((oracle 0).body.statement_response.bind (fun s => s.status)).bind
            (fun s => s.state) = some "RUNNING") ∨
         (((oracle 0).body.statement_response.bind (fun s => s.status)).bind
            (fun s => s.state) = some "PENDING"))) :
    getSQLQueryResult oracle tok 0 = ([(0, 0)], .ok (oracle 0).body) := by
  rw [getSQLQueryResult, ht]
  rw [if_neg (not_not_intro hok)]
  rw [dif_neg (by rintro ⟨hs, -⟩; exact hstate hs)]
  simp [pollDelay]

/-- C7 counterexample: a send on which SQL execution was attempted (the
attachment carries `SELECT 1` and the execution call succeeds) settles with
`isQueryResponse = true` but neither a `sqlChartData` nor a `sqlError`,
because the transformer returned `null` on the successful raw result; so
"exactly one of a successful sqlChartData or a sqlError" fails. -/
theorem sql_exec_neither_chart_nor_error_cex :
    sqlAttempt c7PollMessage = some "SELECT 1" ∧
    ((sendMessage initialState "show data" false c7CexEnv).1.messages[2]?).map
        (fun m => (m.isQueryResponse, m.sqlChartData, m.sqlError)) =
      some (some true, none, none) := by
  have hpoll : pollForResponse (fun _ => (⟨200, c7PollMessage⟩ : Fetch GenieMessage))
      (some "t") 0 = ([(0, 0)], .ok c7PollMessage) :=
    pollForResponse_terminal_first _ _ "t" rfl (by decide) (Or.inl rfl)
  have hrun : (runRemoteFlow none "show data" c7CexEnv).2.2 =
      .ok (mkFinalData c7PollMessage c7CexEnv) := by
    simp [runRemoteFlow, pollPhase, jsFalsy, startConversation, getApiToken, jsOk,
      c7CexEnv, hpoll]
  have htext : ¬ jsTrim "show data" = "" := by decide
  have hset : (sendMessage initialState "show data" false c7CexEnv).1.messages =
      (initialState.messages ++ [userMessageOf c7CexEnv.now "show data",
          loadingMessageOf (toString (c7CexEnv.now + 1))]).map
        (settleOne (toString (c7CexEnv.now + 1)) (.ok (mkFinalData c7PollMessage c7CexEnv))) := by
    simp only [sendMessage, if_neg htext]
    simp [initialState, hrun]
  constructor
  · rfl
  · rw [hset]
    rfl

/-- Witness for C7's amended theorem: a settled send whose SQL execution
succeeded never carries both chart data and an SQL error. -/
theorem sql_exec_outcome_exclusive_witness :
    ¬ ((mkFinalData c7PollMessage c7WitnessEnv).sqlChartData.isSome = true ∧
       (mkFinalData c7PollMessage c7WitnessEnv).sqlError.isSome = true) := by
  have hpoll : pollForResponse (fun _ => (⟨200, c7PollMessage⟩ : Fetch GenieMessage))
      (some "t") 0 = ([(0, 0)], .ok c7PollMessage) :=
    pollForResponse_terminal_first _ _ "t" rfl (by decide) (Or.inl rfl)
  have hrun : (runRemoteFlow none "show data" c7WitnessEnv).2.2 =
      .ok (mkFinalData c7PollMessage c7WitnessEnv) := by
    simp [runRemoteFlow, pollPhase, jsFalsy, startConversation, getApiToken, jsOk,
      c7WitnessEnv, hpoll]
  exact (sql_exec_outcome_exclusive none "show data" c7WitnessEnv
    (mkFinalData c7PollMessage c7WitnessEnv) hrun).1
